import Mathlib

/-!
Verification of the agent-lab query-resolution pipeline.

Python strings are modelled as lists of characters (`Str`); every text
operation used by the code (strip, split, rfind, slicing, count) is defined
below with Python semantics.  The prompt budgeter and response sanitizer are
translated from `server/models/local/local_llm.py` (`LocalChatModel.invoke`
and `LocalChatModel._clean_response`), and the query resolver from
`server/api.py` (`query_rag`, `get_local_model`).  External effects (vector
search, hosted completion, local inference) are passed in as oracle
functions returning `Except`, an exception or a value.
-/

abbrev Str := List Char

/-- Convert a Lean string literal to the character-list model. -/
def s2l (s : String) : Str := s.data

-- Whitespace test used by Python `str.strip()` / `str.split()` on the
-- ASCII whitespace that can occur in this pipeline.
def isSpaceB (c : Char) : Bool := c == ' ' || c == '\n' || c == '\t' || c == '\r'

/-- Python `s.strip()`: drop whitespace from both ends. -/
def strip (s : Str) : Str :=
  ((s.dropWhile isSpaceB).reverse.dropWhile isSpaceB).reverse

/-- Worker for `splitOnStr`: scans left to right keeping the current chunk
reversed; a separator is detected the moment the reversed chunk starts with
the reversed separator, which matches Python's leftmost non-overlapping
scan. -/
def splitOnStrGo (sepRev : Str) : Str → Str → List Str
  | [], cur => [cur.reverse]
  | c :: rest, cur =>
    let cur' := c :: cur
    if List.isPrefixOf sepRev cur' then
      (List.drop sepRev.length cur').reverse :: splitOnStrGo sepRev rest []
    else
      splitOnStrGo sepRev rest cur'

/-- Python `s.split(sep)` for a non-empty separator. -/
def splitOnStr (sep s : Str) : List Str :=
  if sep = [] then [s] else splitOnStrGo sep.reverse s []

/-- Python `s.count(sub)` for a non-empty `sub`:
number of non-overlapping occurrences. -/
def countSub (s pat : Str) : Nat := (splitOnStr pat s).length - 1

/-- Worker for `words`. -/
def wordsGo : Str → Str → List Str
  | [], cur => if cur = [] then [] else [cur.reverse]
  | c :: rest, cur =>
    if isSpaceB c then
      if cur = [] then wordsGo rest [] else cur.reverse :: wordsGo rest []
    else
      wordsGo rest (c :: cur)

/-- Python `s.split()` with no argument: whitespace-separated words. -/
def words (s : Str) : List Str := wordsGo s []

/-- Python `s.rfind(pat)` restricted to found results: index of the
rightmost occurrence of `pat` in `s`, `none` when absent. -/
def rfindStr (s pat : Str) : Option Nat :=
  (List.filter (fun i => List.isPrefixOf pat (s.drop i)) (List.range (s.length + 1))).getLast?

/-- Python `s.rfind(c)` for a single character, with the -1-for-absent
convention kept as an integer. -/
def rfindChar (s : Str) (c : Char) : Int :=
  match (List.filter (fun i => (s.drop i).head? == some c) (List.range s.length)).getLast? with
  | some i => (i : Int)
  | none => -1

-- String constants of the pipeline (api.py and local_llm.py literals).
def qMarker : Str := "Question:".data
def qShort : Str := "Q:".data
def ellipsis : Str := "...".data
def nl : Str := "\n".data
def dot : Str := ".".data
def dotSp : Str := ". ".data

/-- Marker search of `LocalChatModel.invoke` (local_llm.py lines 74-81):
the loop tries "Question:" first and breaks on the first marker whose
`rfind` succeeds, so "Q:" is consulted only when "Question:" is absent. -/
def findQuestionStart (p : Str) : Option Nat :=
  match rfindStr p qMarker with
  | some i => some i
  | none => rfindStr p qShort

/-- Prompt budgeter of `LocalChatModel.invoke` (local_llm.py lines 72-93).
`contextBudget` is computed over the integers because the Python value
`max_input_length - (len - question_start)` can be negative. -/
def budget (p : Str) (maxLen : Nat) : Str :=
  if p.length ≤ maxLen then p
  else
    match findQuestionStart p with
    | some qs =>
      if maxLen / 2 < qs then
        let cb : Int := (maxLen : Int) - ((p.length : Int) - (qs : Int))
        if 50 < cb then p.take cb.toNat ++ ellipsis ++ p.drop qs
        else p.drop qs
      else p.take maxLen ++ ellipsis
    | none => p.take maxLen ++ ellipsis


/-- Line-deduplication loop of `LocalChatModel._clean_response`
(local_llm.py lines 140-152): `acc` holds the kept lines reversed, `seen`
the set of kept lines (the Python code maintains both; they always hold
the same lines). -/
def dedupGo : List Str → List Str → List Str → List Str
  | [], acc, _ => acc.reverse
  | l :: rest, acc, seen =>
    let t := strip l
    if t ≠ [] ∧ t ∉ seen then dedupGo rest (t :: acc) (t :: seen)
    else if t ≠ [] ∧ acc ≠ [] then acc.reverse
    else dedupGo rest acc seen

/-- The sanitizer's line deduplication applied to a list of lines. -/
def dedupLines (ls : List Str) : List Str := dedupGo ls [] []

/-- Modelled from the spec's words for the line-deduplication step: keep
each non-empty stripped line the first time it is seen, stop at the first
repetition of a kept line, skip empty lines. -/
def specDedupGo : List Str → List Str → List Str
  | [], acc => acc
  | l :: rest, acc =>
    let t := strip l
    if t = [] then specDedupGo rest acc
    else if t ∈ acc then acc
    else specDedupGo rest (acc ++ [t])

/-- Spec-side line deduplication. -/
def specLineDedup (ls : List Str) : List Str := specDedupGo ls []

/-- Question-echo step of `_clean_response` (local_llm.py lines 156-163):
for the first pattern whose count exceeds one, keep `split(pattern)[0]`
stripped — the text before the FIRST occurrence of the pattern. -/
def dropSecondQuestion (r : Str) : Str :=
  if 1 < countSub r qMarker then strip ((splitOnStr qMarker r).headD [])
  else if 1 < countSub r qShort then strip ((splitOnStr qShort r).headD [])
  else r

/-- Length-cap step of `_clean_response` (local_llm.py lines 165-170). -/
def lengthCap (r : Str) : Str :=
  if 400 < r.length then
    if 1 < (splitOnStr dotSp r).length then
      List.intercalate dotSp (List.dropLast (splitOnStr dotSp r)) ++ dot
    else r
  else r

/-- Python `response.endswith(('.', '!', '?', ':'))`. -/
def endsIn (r : Str) : Bool :=
  match r.getLast? with
  | some c => c == '.' || c == '!' || c == '?' || c == ':'
  | none => false

/-- Trailing-punctuation step of `_clean_response` (local_llm.py lines
172-183).  The Python test `last_punct > len(response) * 0.4` compares an
integer with a float; it is modelled by the exact rational comparison
`5 * last_punct > 2 * len`, which the double rounding of `0.4` and of the
product never flips for the lengths reachable here. -/
def fixTrailing (r : Str) : Str :=
  if r ≠ [] ∧ endsIn r = false then
    if 3 < (words r).length then
      let lp : Int := max (max (rfindChar r '.') (rfindChar r '!')) (rfindChar r '?')
      if 2 * (r.length : Int) < 5 * lp then List.take (lp.toNat + 1) r else r
    else r
  else r

/-- `LocalChatModel._clean_response` (local_llm.py lines 135-185): strip,
deduplicate lines, drop repeated question echoes, cap the length, repair
the trailing punctuation. -/
def cleanResponse (response : Str) : Str :=
  fixTrailing (lengthCap (dropSecondQuestion
    (List.intercalate nl (dedupLines (splitOnStr nl (strip response))))))


-- api.py string literals.
def localDash : Str := "local-".data
def localGpt2 : Str := "local-gpt2".data
def localDistil : Str := "local-distilgpt2".data
def gpt4omini : Str := "gpt-4o-mini".data
def errLabel : Str := "Error".data
def unknownLabel : Str := "Unknown".data
def unknownLocalPre : Str := "Unknown local model: ".data
def errLocal : Str := "Error with local model: ".data
def errOpenAI : Str := "Error calling OpenAI: ".data
def errSearch : Str := "Error searching vector database: ".data
def errColon : Str := "Error: ".data
def directPre : Str := "Please answer this question: ".data
def blankSep : Str := "\n\n".data
def ragLocalPre : Str := "Based on the following context, answer the question concisely:\n\nContext:\n".data
def ragLocalMid : Str := "\n\nQuestion: ".data
def ragLocalSuf : Str := "\n\nAnswer:".data
def ragHostedPre : Str := "Use the following context to answer:\n\n".data
def ragHostedMid : Str := "\n\nQ: ".data
def ragHostedSuf : Str := "\nA:".data
def dbMissingLocalLabel : Str := "Direct local model response (no vector database)".data
def dbMissingHostedLabel : Str := "Direct OpenAI response (no vector database)".data
def noDocsLocalLabel : Str := "Direct local model response (no relevant documents)".data
def noDocsHostedLabel : Str := "Direct OpenAI response (no relevant documents)".data

/-- A document returned by `similarity_search`: `page_content` and the
optional `metadata["source"]` label. -/
structure Chunk where
  text : Str
  source : Option Str
deriving DecidableEq, Repr

/-- The response schema of api.py (`QueryResponse`). -/
structure QueryResponse where
  answer : Str
  sources : List Str
deriving DecidableEq, Repr

/-- `d.metadata.get("source", "Unknown")` (api.py line 195). -/
def chunkLabel (d : Chunk) : Str := d.source.getD unknownLabel

/-- `get_local_model` (api.py lines 67-76): the closed identifier set; an
unknown name raises `ValueError(f"Unknown local model: {model_name}")`,
a known name may still fail while loading (`load` oracle). -/
def getLocalModel (load : Except Str Unit) (model : Str) : Except Str Unit :=
  if model = localGpt2 then load
  else if model = localDistil then load
  else Except.error (unknownLocalPre ++ model)

/-- `LocalChatModel.invoke` (local_llm.py lines 59-133) with the underlying
tokenize-generate-decode step abstracted as `gen`, which receives the
budgeted prompt and returns the decoded `full_response` or the exception.
The surrounding `try` turns an exception into the content
`f"Error: {str(e)}"`; on success the new content after the budgeted prompt
is stripped and sanitized. -/
def localInvoke (gen : Str → Except Str Str) (prompt : Str) : Str :=
  let pt := budget prompt 400
  match gen pt with
  | Except.error e => errColon ++ e
  | Except.ok full => cleanResponse (strip (full.drop pt.length))

/-- `f"Please answer this question: {req.question}"` (api.py lines 90, 106,
127, 142). -/
def directPrompt (q : Str) : Str := directPre ++ q

/-- The RAG prompt of the local branch (api.py line 168). -/
def ragLocalPrompt (context q : Str) : Str :=
  ragLocalPre ++ context ++ ragLocalMid ++ q ++ ragLocalSuf

/-- The RAG prompt of the hosted branch (api.py line 180). -/
def ragHostedPrompt (context q : Str) : Str :=
  ragHostedPre ++ context ++ ragHostedMid ++ q ++ ragHostedSuf

/-- The direct (context-free) fallback shared by the no-vector-database and
no-relevant-documents tiers of `query_rag` (api.py lines 85-117 and
122-153): the two code blocks are identical up to the provenance labels
passed here as `localLabel` / `hostedLabel`. -/
def directQuery (hosted : Str → Except Str Str) (load : Except Str Unit)
    (gen : Str → Except Str Str) (model q localLabel hostedLabel : Str) :
    QueryResponse :=
  if List.isPrefixOf localDash model then
    match getLocalModel load model with
    | Except.error e => ⟨errLocal ++ e, [errLabel]⟩
    | Except.ok _ => ⟨localInvoke gen (directPrompt q), [localLabel]⟩
  else
    match hosted (directPrompt q) with
    | Except.error e => ⟨errOpenAI ++ e, [errLabel]⟩
    | Except.ok t => ⟨t, [hostedLabel]⟩

/-- `query_rag` (api.py lines 78-196).  `db` is the retrieval oracle:
`none` models `get_vector_db()` returning `None` (vector database cannot
be constructed), `some (Except.error e)` models `similarity_search`
raising, `some (Except.ok docs)` a successful search.  `hosted` models the
OpenAI chat-completion call, `load` the local-model construction and `gen`
the local generation step. -/
def queryRag (db : Option (Except Str (List Chunk)))
    (hosted : Str → Except Str Str) (load : Except Str Unit)
    (gen : Str → Except Str Str) (model q : Str) : QueryResponse :=
  match db with
  | none => directQuery hosted load gen model q dbMissingLocalLabel dbMissingHostedLabel
  | some (Except.error e) => ⟨errSearch ++ e, [errLabel]⟩
  | some (Except.ok docs) =>
    if docs.isEmpty then
      directQuery hosted load gen model q noDocsLocalLabel noDocsHostedLabel
    else
      let context := List.intercalate blankSep (docs.map Chunk.text)
      if List.isPrefixOf localDash model then
        match getLocalModel load model with
        | Except.error e => ⟨errLocal ++ e, [errLabel]⟩
        | Except.ok _ =>
          ⟨localInvoke gen (ragLocalPrompt context q), docs.map chunkLabel⟩
      else
        match hosted (ragHostedPrompt context q) with
        | Except.error e => ⟨errOpenAI ++ e, [errLabel]⟩
        | Except.ok t => ⟨t, docs.map chunkLabel⟩


lemma findQuestionStart_of_qMarker (p : Str) (i : Nat)
    (h : rfindStr p qMarker = some i) : findQuestionStart p = some i := by
  unfold findQuestionStart; rw [h]

lemma findQuestionStart_of_no_qMarker (p : Str)
    (h : rfindStr p qMarker = none) : findQuestionStart p = rfindStr p qShort := by
  unfold findQuestionStart; rw [h]

/-- The answer starts with the five characters "Error". -/
def startsWithError (r : Str) : Prop := ∃ t, r = errLabel ++ t

lemma startsWithError_append (x y : Str) (hx : x = errLabel ++ y) (e : Str) :
    startsWithError (x ++ e) := ⟨y ++ e, by rw [hx, List.append_assoc]⟩

/-- C5 counterexample: in "Question: a Q: b" the last occurrence of
"Question:" is at 0 and the last occurrence of "Q:" is at 12, so the
claimed qStart (the maximum, 12) differs from the code's qStart (0, the
preferred marker), and with maxInputLength 10 the budgeter consequently
takes the simple-truncation branch instead of returning the "Q: b" tail. -/
theorem c5_counterexample :
    rfindStr (s2l "Question: a Q: b") qMarker = some 0 ∧
    rfindStr (s2l "Question: a Q: b") qShort = some 12 ∧
    10 < (s2l "Question: a Q: b").length ∧
    findQuestionStart (s2l "Question: a Q: b") ≠ some 12 ∧
    budget (s2l "Question: a Q: b") 10 = s2l "Question: ..." := by decide

/-- C5 (amended): the budgeter's qStart is the last occurrence of
"Question:" whenever that marker occurs at all, and only when "Question:"
is absent is the last occurrence of "Q:" used — a marker preference, not
the maximum over both markers. -/
theorem c5_marker_preference (p : Str) :
    (∀ i, rfindStr p qMarker = some i → findQuestionStart p = some i) ∧
    (rfindStr p qMarker = none → findQuestionStart p = rfindStr p qShort) :=
  ⟨fun i h => findQuestionStart_of_qMarker p i h,
   fun h => findQuestionStart_of_no_qMarker p h⟩

/-- Witness for C5 (amended) at the two-marker prompt. -/
theorem c5_marker_preference_witness :
    findQuestionStart (s2l "Question: a Q: b") = some 0 :=
  (c5_marker_preference (s2l "Question: a Q: b")).1 0 (by decide)

/-- C4 counterexample: "xQuestion: abcdef" has its "Question:" marker at
position 1 > 0 and is longer than maxInputLength 10, yet the budgeted
output (simple truncation, because 1 ≤ 10 / 2) does not contain the
substring from position 1 to the end. -/
theorem c4_counterexample :
    rfindStr (s2l "xQuestion: abcdef") qMarker = some 1 ∧
    10 < (s2l "xQuestion: abcdef").length ∧
    ¬ ((s2l "xQuestion: abcdef").drop 1 <:+: budget (s2l "xQuestion: abcdef") 10) :=
  ⟨by decide, by decide, fun h => absurd h.length_le (by decide)⟩

/-- C4 (amended): for a prompt longer than maxInputLength whose rightmost
"Question:" occurrence qs satisfies qs > maxInputLength / 2, the budgeted
output contains the exact substring of the prompt from qs to its end. -/
theorem c4_question_preserved (p : Str) (m qs : Nat) (hm : m < p.length)
    (hq : rfindStr p qMarker = some qs) (hhalf : m / 2 < qs) :
    p.drop qs <:+: budget p m := by
  have hfq : findQuestionStart p = some qs := findQuestionStart_of_qMarker p qs hq
  unfold budget
  rw [if_neg (not_le.mpr hm)]
  simp only [hfq]
  rw [if_pos hhalf]
  split
  · exact ⟨List.take ((m : Int) - ((p.length : Int) - (qs : Int))).toNat p ++ ellipsis,
      [], by simp [List.append_assoc]⟩
  · exact ⟨[], [], by simp⟩

/-- A long prompt whose question marker sits in the second half: 61
filler characters, the marker, 40 question characters. -/
def cP4 : Str := List.replicate 61 'x' ++ qMarker ++ List.replicate 40 'y'

/-- Witness for C4 (amended) at `cP4` with maxInputLength 100. -/
theorem c4_question_preserved_witness :
    100 < cP4.length ∧ cP4.drop 61 <:+: budget cP4 100 :=
  ⟨by decide, c4_question_preserved cP4 100 61 (by decide) (by decide) (by decide)⟩

/-- A long prompt whose "Q:" tail alone exceeds the budget. -/
def cP10 : Str := List.replicate 6 'x' ++ qShort ++ List.replicate 12 'y'

/-- C10: the budgeter's output is not bounded by maxInputLength — in the
simple-truncation branch ("xQuestion: abcdef" at budget 10), the
context-plus-question branch (`cP4` at budget 100) and the question-only
branch (`cP10` at budget 10) the output is strictly longer than the
budget. -/
theorem c10_unbounded_output :
    (10 < (s2l "xQuestion: abcdef").length ∧
      10 < (budget (s2l "xQuestion: abcdef") 10).length) ∧
    (100 < cP4.length ∧ 100 < (budget cP4 100).length) ∧
    (10 < cP10.length ∧ 10 < (budget cP10 10).length) := by decide

lemma dedupGo_spec (ls : List Str) : ∀ acc : List Str,
    dedupGo ls acc acc = specDedupGo ls acc.reverse := by
  induction ls with
  | nil => intro acc; rfl
  | cons l rest ih =>
    intro acc
    simp only [dedupGo, specDedupGo]
    by_cases ht : strip l = []
    · simp [ht, ih acc]
    · by_cases hm : strip l ∈ acc
      · have hacc : acc ≠ [] := fun h => by simp [h] at hm
        simp [ht, hm, hacc, List.mem_reverse]
      · have h2 := ih (strip l :: acc)
        simp only [List.reverse_cons] at h2
        simp [ht, hm, List.mem_reverse, h2]

/-- C7: the sanitizer's line deduplication keeps each non-empty stripped
line only the first time it is seen and stops at the first repetition of a
kept line (it agrees with the step as the spec words it), and on the lines
"A", "B", "A", "C" it keeps exactly "A", "B". -/
theorem c7_dedup_halts :
    (∀ ls : List Str, dedupLines ls = specLineDedup ls) ∧
    dedupLines (splitOnStr nl (s2l "A\nB\nA\nC")) = [s2l "A", s2l "B"] := by
  constructor
  · intro ls
    have h := dedupGo_spec ls []
    simpa [dedupLines, specLineDedup] using h
  · decide

/-- C3 (code bug): on "A Question: B Question: C" the question-echo step
keeps only "A" — the text strictly before the FIRST occurrence of the
repeated marker — and not the text strictly before the second occurrence
("A Question: B") that the claim, the spec and the code's own comment
("Keep only content before the second occurrence") prescribe. -/
theorem c3_truncates_before_first :
    dropSecondQuestion (s2l "A Question: B Question: C") = s2l "A" ∧
    s2l "A" ≠ s2l "A Question: B" := by decide

lemma endsIn_append_dot (X : Str) : endsIn (X ++ dot) = true := by
  unfold endsIn
  rw [show (X ++ dot).getLast? = some '.' from List.getLast?_concat X]
  rfl

/-- C8: a sanitizer intermediate result longer than 400 characters that
splits on ". " into more than one segment is rejoined without its last
segment with ". " and a terminating period appended, and the
trailing-punctuation step that runs afterwards leaves this result
unchanged. -/
theorem c8_length_cap (r : Str) (h400 : 400 < r.length)
    (hseg : 1 < (splitOnStr dotSp r).length) :
    lengthCap r = List.intercalate dotSp (List.dropLast (splitOnStr dotSp r)) ++ dot ∧
    fixTrailing (lengthCap r) = lengthCap r := by
  have hcap : lengthCap r =
      List.intercalate dotSp (List.dropLast (splitOnStr dotSp r)) ++ dot := by
    unfold lengthCap; rw [if_pos h400, if_pos hseg]
  refine ⟨hcap, ?_⟩
  rw [hcap]
  unfold fixTrailing
  rw [if_neg ?_]
  rintro ⟨-, he⟩
  rw [endsIn_append_dot] at he
  simp at he

/-- A 450-character sanitizer input of three ". "-separated segments. -/
def r450 : Str :=
  List.replicate 200 'a' ++ dotSp ++ List.replicate 200 'b' ++ dotSp ++
    List.replicate 46 'c'

set_option maxRecDepth 4000 in
/-- Witness for C8 at the 450-character three-sentence input: the result
keeps only the first two sentences and ends in ".". -/
theorem c8_length_cap_witness :
    (400 < r450.length ∧ 1 < (splitOnStr dotSp r450).length) ∧
    (lengthCap r450 = List.intercalate dotSp (List.dropLast (splitOnStr dotSp r450)) ++ dot ∧
     fixTrailing (lengthCap r450) = lengthCap r450) :=
  ⟨⟨by decide, by decide⟩, c8_length_cap r450 (by decide) (by decide)⟩

lemma swe_openai (e : Str) : startsWithError (errOpenAI ++ e) :=
  startsWithError_append errOpenAI (s2l " calling OpenAI: ") (by decide) e

lemma swe_search (e : Str) : startsWithError (errSearch ++ e) :=
  startsWithError_append errSearch (s2l " searching vector database: ") (by decide) e

lemma swe_local (e : Str) : startsWithError (errLocal ++ e) :=
  startsWithError_append errLocal (s2l " with local model: ") (by decide) e

lemma swe_colon (e : Str) : startsWithError (errColon ++ e) :=
  startsWithError_append errColon (s2l ": ") (by decide) e

/-- The provenance labels of the tier surrounding a local backend
invocation that the resolver reaches: the direct-response label when the
vector database is missing, the no-relevant-documents label when
retrieval is empty, the chunk labels otherwise. -/
def localTierLabels (docsOpt : Option (List Chunk)) : List Str :=
  match docsOpt with
  | none => [dbMissingLocalLabel]
  | some docs => if docs.isEmpty then [noDocsLocalLabel] else docs.map chunkLabel

/-- C1 (amended): a raising hosted invocation (part 1, any non-local
identifier) or a raising local model construction (part 2, either known
local identifier) resolves to a normal Answer whose sources are exactly
["Error"] and whose text starts with "Error", whatever the retrieval
outcome.  A raising local underlying generation (part 3) is caught
inside the backend: on every tier that reaches the backend the answer
text starts with "Error" but the sources are the provenance labels of
the surrounding tier — the direct-response labels or the chunk labels —
not ["Error"].  In all cases the resolver returns a value, never an
exception. -/
theorem c1_generation_failure :
    (∀ (db : Option (Except Str (List Chunk))) ld lg m q e,
        List.isPrefixOf localDash m = false →
        (queryRag db (fun _ => Except.error e) ld lg m q).sources = [errLabel] ∧
        startsWithError (queryRag db (fun _ => Except.error e) ld lg m q).answer) ∧
    (∀ (db : Option (Except Str (List Chunk))) hosted lg q f m,
        m = localGpt2 ∨ m = localDistil →
        (queryRag db hosted (Except.error f) lg m q).sources = [errLabel] ∧
        startsWithError (queryRag db hosted (Except.error f) lg m q).answer) ∧
    (∀ (docsOpt : Option (List Chunk)) hosted q e m,
        m = localGpt2 ∨ m = localDistil →
        startsWithError
          (queryRag (Option.map Except.ok docsOpt) hosted (Except.ok ())
            (fun _ => Except.error e) m q).answer ∧
        (queryRag (Option.map Except.ok docsOpt) hosted (Except.ok ())
            (fun _ => Except.error e) m q).sources = localTierLabels docsOpt) := by
  refine ⟨?_, ?_, ?_⟩
  · intro db ld lg m q e hm
    match db with
    | none =>
      exact ⟨by simp [queryRag, directQuery, hm],
        by simpa [queryRag, directQuery, hm] using swe_openai e⟩
    | some (Except.error f) => exact ⟨rfl, swe_search f⟩
    | some (Except.ok docs) =>
      by_cases hd : docs.isEmpty
      · exact ⟨by simp [queryRag, directQuery, hd, hm],
          by simpa [queryRag, directQuery, hd, hm] using swe_openai e⟩
      · exact ⟨by simp [queryRag, hd, hm],
          by simpa [queryRag, hd, hm] using swe_openai e⟩
  · intro db hosted lg q f m hm
    have hme : List.isPrefixOf localDash m = true := by
      rcases hm with h1 | h1 <;> subst h1 <;> decide
    have hglm : getLocalModel (Except.error f) m = Except.error f := by
      rcases hm with h1 | h1 <;> subst h1 <;> rfl
    match db with
    | none =>
      exact ⟨by simp [queryRag, directQuery, hme, hglm],
        by simpa [queryRag, directQuery, hme, hglm] using swe_local f⟩
    | some (Except.error g) => exact ⟨rfl, swe_search g⟩
    | some (Except.ok docs) =>
      by_cases hd : docs.isEmpty
      · exact ⟨by simp [queryRag, directQuery, hme, hglm, hd],
          by simpa [queryRag, directQuery, hme, hglm, hd] using swe_local f⟩
      · exact ⟨by simp [queryRag, hme, hglm, hd],
          by simpa [queryRag, hme, hglm, hd] using swe_local f⟩
  · intro docsOpt hosted q e m hm
    have hme : List.isPrefixOf localDash m = true := by
      rcases hm with h1 | h1 <;> subst h1 <;> decide
    have hglm : getLocalModel (Except.ok ()) m = Except.ok () := by
      rcases hm with h1 | h1 <;> subst h1 <;> rfl
    match docsOpt with
    | none =>
      exact ⟨by simpa [queryRag, directQuery, hme, hglm, localInvoke] using swe_colon e,
        by simp [queryRag, directQuery, hme, hglm, localTierLabels]⟩
    | some docs =>
      by_cases hd : docs.isEmpty
      · exact ⟨by simpa [queryRag, directQuery, hme, hglm, hd, localInvoke] using
            swe_colon e,
          by simp [queryRag, directQuery, hme, hglm, hd, localTierLabels]⟩
      · exact ⟨by simpa [queryRag, hme, hglm, hd, localInvoke] using swe_colon e,
          by simp [queryRag, hme, hglm, hd, localTierLabels]⟩

/-- A retrieved chunk carrying a source label. -/
def cexChunk : Chunk := ⟨s2l "some context", some (s2l "doc1.pdf")⟩

/-- C1 counterexample: retrieval returns a labelled chunk, the local
backend's underlying generation raises ("boom"); the resolver's Answer
text is the synthetic "Error: boom", but its sources are the chunk labels
["doc1.pdf"], not ["Error"] as the claim requires. -/
theorem c1_counterexample :
    (queryRag (some (Except.ok [cexChunk])) (fun p => Except.ok p) (Except.ok ())
        (fun _ => Except.error (s2l "boom")) localGpt2 (s2l "hi")).answer =
      errColon ++ s2l "boom" ∧
    (queryRag (some (Except.ok [cexChunk])) (fun p => Except.ok p) (Except.ok ())
        (fun _ => Except.error (s2l "boom")) localGpt2 (s2l "hi")).sources =
      [s2l "doc1.pdf"] ∧
    [s2l "doc1.pdf"] ≠ [errLabel] := by decide

/-- Witness for C1 (amended): a hosted backend raising "boom" on a
no-vector-database query, a local model whose construction raises
"load failed", and a local model whose underlying generation raises
"boom" on a one-chunk retrieval. -/
theorem c1_generation_failure_witness :
    ((queryRag none (fun _ => Except.error (s2l "boom")) (Except.ok ())
        (fun p => Except.ok p) gpt4omini (s2l "hi")).sources = [errLabel] ∧
      startsWithError
        (queryRag none (fun _ => Except.error (s2l "boom")) (Except.ok ())
          (fun p => Except.ok p) gpt4omini (s2l "hi")).answer) ∧
    ((queryRag none (fun p => Except.ok p) (Except.error (s2l "load failed"))
        (fun p => Except.ok p) localGpt2 (s2l "hi")).sources = [errLabel] ∧
      startsWithError
        (queryRag none (fun p => Except.ok p) (Except.error (s2l "load failed"))
          (fun p => Except.ok p) localGpt2 (s2l "hi")).answer) ∧
    (startsWithError
        (queryRag (some (Except.ok [cexChunk])) (fun p => Except.ok p) (Except.ok ())
          (fun _ => Except.error (s2l "boom")) localGpt2 (s2l "hi")).answer ∧
      (queryRag (some (Except.ok [cexChunk])) (fun p => Except.ok p) (Except.ok ())
          (fun _ => Except.error (s2l "boom")) localGpt2 (s2l "hi")).sources =
        localTierLabels (some [cexChunk])) :=
  ⟨c1_generation_failure.1 none (Except.ok ()) (fun p => Except.ok p) gpt4omini
      (s2l "hi") (s2l "boom") (by decide),
   c1_generation_failure.2.1 none (fun p => Except.ok p) (fun p => Except.ok p)
      (s2l "hi") (s2l "load failed") localGpt2 (Or.inl rfl),
   c1_generation_failure.2.2 (some [cexChunk]) (fun p => Except.ok p) (s2l "hi")
      (s2l "boom") localGpt2 (Or.inl rfl)⟩

/-- C2 (amended): with the vector database unavailable and a hosted
backend that succeeds, the resolver invokes the backend on the
bare-question prompt "Please answer this question: {q}" and labels the
answer "Direct OpenAI response (no vector database)". -/
theorem c2_direct_hosted (q m : Str) (g : Str → Str) (ld : Except Str Unit)
    (lg : Str → Except Str Str) (hm : List.isPrefixOf localDash m = false) :
    queryRag none (fun p => Except.ok (g p)) ld lg m q =
      ⟨g (directPrompt q), [dbMissingHostedLabel]⟩ := by
  simp [queryRag, directQuery, hm]

/-- C2 counterexample: the fallback label produced by the code is
"Direct OpenAI response (no vector database)", not the claimed
"Direct response (no vector database)". -/
theorem c2_counterexample :
    (queryRag none (fun p => Except.ok p) (Except.ok ()) (fun p => Except.ok p)
        gpt4omini (s2l "hi")).sources = [dbMissingHostedLabel] ∧
    dbMissingHostedLabel ≠ s2l "Direct response (no vector database)" := by decide

/-- Witness for C2 (amended) with the identity continuation: the answer is
exactly the bare-question prompt the backend was invoked on. -/
theorem c2_direct_hosted_witness :
    queryRag none (fun p => Except.ok p) (Except.ok ()) (fun p => Except.ok p)
        gpt4omini (s2l "hi") =
      ⟨directPrompt (s2l "hi"), [dbMissingHostedLabel]⟩ :=
  c2_direct_hosted (s2l "hi") gpt4omini (fun p => p) (Except.ok ())
    (fun p => Except.ok p) (by decide)

/-- C6: when retrieval returns one or more chunks and the backend
succeeds, the Answer's sources are each chunk's label in retrieval order
with "Unknown" substituted for an absent label — for a hosted backend
(first part) and for the local backend (second part). -/
theorem c6_source_labels :
    (∀ (docs : List Chunk) q m ld lg (g : Str → Str), docs ≠ [] →
        List.isPrefixOf localDash m = false →
        (queryRag (some (Except.ok docs)) (fun p => Except.ok (g p)) ld lg m q).sources =
          docs.map chunkLabel) ∧
    (∀ (docs : List Chunk) q h (raw : Str → Str), docs ≠ [] →
        (queryRag (some (Except.ok docs)) h (Except.ok ())
            (fun p => Except.ok (raw p)) localGpt2 q).sources = docs.map chunkLabel) := by
  constructor
  · intro docs q m ld lg g hd hm
    match docs, hd with
    | d :: ds, _ => simp [queryRag, hm]
  · intro docs q h raw hd
    have hg : List.isPrefixOf localDash localGpt2 = true := by decide
    match docs, hd with
    | d :: ds, _ => simp [queryRag, hg, getLocalModel, localInvoke]

/-- Chunks as retrieved: two labelled documents and one without a source
label. -/
def wdocs : List Chunk :=
  [⟨s2l "alpha", some (s2l "doc1.pdf")⟩, ⟨s2l "beta", some (s2l "doc2.pdf")⟩,
   ⟨s2l "gamma", none⟩]

/-- Witness for C6: labels ["doc1.pdf", "doc2.pdf", "Unknown"] in
retrieval order. -/
theorem c6_source_labels_witness :
    (queryRag (some (Except.ok wdocs)) (fun p => Except.ok p) (Except.ok ())
        (fun p => Except.ok p) gpt4omini (s2l "hi")).sources =
      [s2l "doc1.pdf", s2l "doc2.pdf", unknownLabel] :=
  (c6_source_labels.1 wdocs (s2l "hi") gpt4omini (Except.ok ())
      (fun p => Except.ok p) (fun p => p) (by decide) (by decide)).trans (by decide)

/-- C9 (amended): an unknown local-prefixed identifier raises at lazy
construction time during query handling; the per-query handler catches it
and converts it into an "Error"-labeled Answer with text
"Error with local model: Unknown local model: {id}" — on every tier that
reaches the backend (vector database missing, empty retrieval, or
retrieval success). -/
theorem c9_unknown_local_caught :
    ∀ (docsOpt : Option (List Chunk)) (hosted : Str → Except Str Str)
      (ld : Except Str Unit) (lg : Str → Except Str Str) (q m : Str),
      List.isPrefixOf localDash m = true → m ≠ localGpt2 → m ≠ localDistil →
      queryRag (Option.map Except.ok docsOpt) hosted ld lg m q =
        ⟨errLocal ++ (unknownLocalPre ++ m), [errLabel]⟩ := by
  intro docsOpt hosted ld lg q m hpre h1 h2
  have hglm : getLocalModel ld m = Except.error (unknownLocalPre ++ m) := by
    simp [getLocalModel, h1, h2]
  match docsOpt with
  | none => simp [queryRag, directQuery, hpre, hglm]
  | some docs =>
    by_cases hd : docs.isEmpty
    · simp [queryRag, directQuery, hpre, hglm, hd]
    · simp [queryRag, directQuery, hpre, hglm, hd]

/-- C9 counterexample: the unknown identifier "local-foo" IS converted at
resolution time into a per-query Answer labeled ["Error"], contradicting
"never converted into a per-query Error-labeled Answer". -/
theorem c9_counterexample :
    (queryRag none (fun p => Except.ok p) (Except.ok ()) (fun p => Except.ok p)
        (s2l "local-foo") (s2l "hi")).sources = [errLabel] ∧
    (queryRag none (fun p => Except.ok p) (Except.ok ()) (fun p => Except.ok p)
        (s2l "local-foo") (s2l "hi")).answer =
      errLocal ++ (unknownLocalPre ++ s2l "local-foo") := by decide

/-- Witness for C9 (amended) at the identifier "local-foo". -/
theorem c9_unknown_local_caught_witness :
    queryRag none (fun p => Except.ok p) (Except.ok ()) (fun p => Except.ok p)
        (s2l "local-foo") (s2l "hi") =
      ⟨errLocal ++ (unknownLocalPre ++ s2l "local-foo"), [errLabel]⟩ :=
  c9_unknown_local_caught none (fun p => Except.ok p) (Except.ok ())
    (fun p => Except.ok p) (s2l "hi") (s2l "local-foo") (by decide) (by decide)
    (by decide)
